import Mathlib

/-!
Shallow embedding of `src/nodes/OpenRouterNode/OpenRouterNode.node.ts`
(the n8n OpenRouter node).  JavaScript runtime values are modelled by
`JsValue`, thrown values by `JsError`, and the host context
(`getCredentials`, `helpers.request`, `JSON.parse`, `continueOnFail`)
by explicit function parameters.  Side effects (credential reads and
HTTP requests) are recorded in an explicit effect trace.
-/

/-- A JavaScript runtime value (the subset the node manipulates). -/
inductive JsValue where
  | jsUndefined
  | null
  | bool (b : Bool)
  | num (n : Int)
  | str (s : String)
  | arr (xs : List JsValue)
  | obj (fields : List (String × JsValue))

/-- A thrown JavaScript value: either an `Error` instance (carrying its
`message`, covering `NodeOperationError` as well) or a non-`Error` value. -/
inductive JsError where
  | errorObj (msg : String)
  | nonError (v : JsValue)

/-- JS `error instanceof Error ? error.message : 'Unknown error occurred'`
(the catch clause of `execute`). -/
def errMessage : JsError → String
  | .errorObj msg => msg
  | .nonError _ => "Unknown error occurred"

/-- Object field read that cannot throw: `fields[k]`, `undefined` when the
key is absent (JS object property access on an object). -/
def jsGet (fields : List (String × JsValue)) (k : String) : JsValue :=
  match fields.lookup k with
  | some v => v
  | none => .jsUndefined

/-- JS property access `v.k` on an arbitrary value: throws `TypeError` on
`null`/`undefined`, yields `undefined` on other non-objects. -/
def jsAccess (v : JsValue) (k : String) : Except JsError JsValue :=
  match v with
  | .obj fields => .ok (jsGet fields k)
  | .null => .error (.errorObj ("Cannot read properties of null (reading '" ++ k ++ "')"))
  | .jsUndefined => .error (.errorObj ("Cannot read properties of undefined (reading '" ++ k ++ "')"))
  | _ => .ok .jsUndefined

/-- JS `s.split('\n\n')` specialised to the literal separator used at line
290: leftmost, non-overlapping occurrences of two consecutive newlines cut
the character stream; `acc` holds the pending segment (reversed). -/
def splitNNAux (acc : List Char) : List Char → List (List Char)
  | [] => [acc.reverse]
  | '\n' :: '\n' :: rest => acc.reverse :: splitNNAux [] rest
  | c :: rest => splitNNAux (c :: acc) rest

/-- JS `response.split('\n\n')` (line 290). -/
def jsSplitNN (s : String) : List String :=
  (splitNNAux [] s.data).map String.mk

/-- JS `String.prototype.trim`: strip leading and trailing whitespace. -/
def jsTrim (s : String) : String :=
  String.mk (((s.data.dropWhile Char.isWhitespace).reverse.dropWhile Char.isWhitespace).reverse)

/-- JS `chunk.replace('data: ', '')` (line 293): remove only the first
occurrence of the literal `"data: "`. -/
def removeDataColon : List Char → List Char
  | [] => []
  | c :: cs =>
    if "data: ".data.isPrefixOf (c :: cs) then (c :: cs).drop 6
    else c :: removeDataColon cs

/-- JS `chunk.replace('data: ', '')` on strings. -/
def stripDataOnce (s : String) : String :=
  String.mk (removeDataColon s.data)

/-- The per-item node parameters read by `execute` via `getNodeParameter`
(lines 238–253 of `OpenRouterNode.node.ts`).  Raw configured message
objects keep all of their keys; `execute` projects them later. -/
structure ItemParams where
  operation : String
  model : String
  messages : List (List (String × JsValue))
  max_tokens : Int
  temperature : Int
  top_p : Int
  frequency_penalty : Int
  presence_penalty : Int
  stream : Bool

/-- The projection `(message) => ({ role: message.role, content: message.content })`
applied to each raw configured message object (lines 244–247). -/
def projectMessage (m : List (String × JsValue)) : List (String × JsValue) :=
  [("role", jsGet m "role"), ("content", jsGet m "content")]

/-- The request payload `body` built at lines 260–269: exactly the fields
`model, messages, max_tokens, temperature, top_p, frequency_penalty,
presence_penalty, stream`. -/
structure RequestBody where
  model : String
  messages : List (List (String × JsValue))
  max_tokens : Int
  temperature : Int
  top_p : Int
  frequency_penalty : Int
  presence_penalty : Int
  stream : Bool

/-- The object literal `const body: IDataObject = { model, messages: messagesInput, ... }` (lines 260-269). -/
def buildBody (p : ItemParams) : RequestBody :=
  { model := p.model
    messages := p.messages.map projectMessage
    max_tokens := p.max_tokens
    temperature := p.temperature
    top_p := p.top_p
    frequency_penalty := p.frequency_penalty
    presence_penalty := p.presence_penalty
    stream := p.stream }

/-- Options handed to `this.helpers.request` (both handlers). -/
structure RequestOptions where
  method : String
  url : String
  headers : List (String × String)
  body : Option RequestBody
  json : Bool
  encoding : Option String

/-- The POST options of lines 271–282. -/
def chatRequestOptions (apiKey : String) (p : ItemParams) : RequestOptions :=
  { method := "POST"
    url := "https://openrouter.ai/api/v1/chat/completions"
    headers := [("Authorization", "Bearer " ++ apiKey),
                ("Content-Type", "application/json"),
                ("HTTP-Referer", "https://n8n.io"),
                ("X-Title", "n8n OpenRouter Node")]
    body := some (buildBody p)
    json := true
    encoding := none }

/-- Lines 285–286: `requestOptions.encoding = 'utf8'; requestOptions.json = false`. -/
def streamAdjust (o : RequestOptions) : RequestOptions :=
  { o with encoding := some "utf8", json := false }

/-- The GET options of lines 183–192 (`getModels`). -/
def modelsRequestOptions (apiKey : String) : RequestOptions :=
  { method := "GET"
    url := "https://openrouter.ai/api/v1/models"
    headers := [("Authorization", "Bearer " ++ apiKey),
                ("HTTP-Referer", "https://n8n.io"),
                ("X-Title", "n8n OpenRouter Node")]
    body := none
    json := true
    encoding := none }

/-- A side effect performed through the host context. -/
inductive Effect where
  | getCredentials (name : String)
  | httpRequest (opts : RequestOptions)

/-- Whether an effect is a credential read. -/
def Effect.isCredRead : Effect → Bool
  | .getCredentials _ => true
  | _ => false

/-- Whether an effect is an HTTP request. -/
def Effect.isHttp : Effect → Bool
  | .httpRequest _ => true
  | _ => false

/-- One output record pushed onto `returnData`. -/
structure OutputRecord where
  json : JsValue
  pairedItem : Option Nat

/-- Lines 289–295: split the raw streaming body on `"\n\n"`, drop
whitespace-only chunks, strip the first `"data: "`, parse each rest as
JSON (`JSON.parse` throwing propagates). -/
def parseChunks (parseJson : String → Except JsError JsValue) (body : String) :
    Except JsError (List JsValue) :=
  ((jsSplitNN body).filter (fun chunk => jsTrim chunk ≠ "")).mapM
    (fun chunk => parseJson (stripDataOnce chunk))

/-- The body of the `try` block for one input item (lines 238–306).
Returns the effect trace of the item together with its outcome. -/
def processItem (apiKey : String) (request : RequestOptions → Except JsError JsValue)
    (parseJson : String → Except JsError JsValue) (p : ItemParams) :
    List Effect × Except JsError OutputRecord :=
  let messagesInput := p.messages.map projectMessage
  if p.operation = "chatCompletion" then
    if messagesInput.length = 0 then
      ([], .error (.errorObj "At least one message is required"))
    else
      if p.stream then
        let opts := streamAdjust (chatRequestOptions apiKey p)
        match request opts with
        | .error e => ([.httpRequest opts], .error e)
        | .ok (.str s) =>
          match parseChunks parseJson s with
          | .ok parsed =>
            ([.httpRequest opts],
             .ok { json := .obj [("streamedResponse", .arr parsed)], pairedItem := none })
          | .error e => ([.httpRequest opts], .error e)
        | .ok _ =>
          ([.httpRequest (streamAdjust (chatRequestOptions apiKey p))],
           .error (.errorObj "response.split is not a function"))
      else
        let opts := chatRequestOptions apiKey p
        match request opts with
        | .error e => ([.httpRequest opts], .error e)
        | .ok resp => ([.httpRequest opts], .ok { json := resp, pairedItem := none })
  else
    ([], .error (.errorObj ("The operation \"" ++ p.operation ++ "\" is not supported")))

/-- The error record pushed when `continueOnFail()` is active (lines 309–314). -/
def errRecord (e : JsError) (i : Nat) : OutputRecord :=
  { json := .obj [("error", .str (errMessage e))], pairedItem := some i }

/-- The `for` loop of lines 236–319, starting at item index `i`. -/
def execLoop (apiKey : String) (request : RequestOptions → Except JsError JsValue)
    (parseJson : String → Except JsError JsValue) (continueOnFail : Bool) :
    Nat → List ItemParams → List Effect × Except JsError (List OutputRecord)
  | _, [] => ([], .ok [])
  | i, p :: rest =>
    match processItem apiKey request parseJson p with
    | (fx, .ok r) =>
      match execLoop apiKey request parseJson continueOnFail (i + 1) rest with
      | (fx2, .ok rs) => (fx ++ fx2, .ok (r :: rs))
      | (fx2, .error e2) => (fx ++ fx2, .error e2)
    | (fx, .error e) =>
      if continueOnFail then
        match execLoop apiKey request parseJson continueOnFail (i + 1) rest with
        | (fx2, .ok rs) => (fx ++ fx2, .ok (errRecord e i :: rs))
        | (fx2, .error e2) => (fx ++ fx2, .error e2)
      else (fx, .error e)

/-- The host context and inputs `execute` depends on. -/
structure ExecEnv where
  items : List ItemParams
  apiKey : String
  continueOnFail : Bool
  request : RequestOptions → Except JsError JsValue
  parseJson : String → Except JsError JsValue

/-- The `execute` method (lines 229–322): one credential read, then the item loop;
on success returns `[returnData]`. -/
def execute (env : ExecEnv) : List Effect × Except JsError (List (List OutputRecord)) :=
  match execLoop env.apiKey env.request env.parseJson env.continueOnFail 0 env.items with
  | (fx, .ok rs) => (.getCredentials "openRouterApi" :: fx, .ok [rs])
  | (fx, .error e) => (.getCredentials "openRouterApi" :: fx, .error e)

/-- An option in the model selector, as produced by `getModels`. -/
structure ModelOption where
  name : JsValue
  value : JsValue
  description : JsValue

/-- The mapping `(model) => ({ name: model.id, value: model.id, description: model.description })`
(lines 206–210); property access on a `null`/`undefined` entry throws. -/
def mapModel (m : JsValue) : Except JsError ModelOption := do
  let n ← jsAccess m "id"
  let v ← jsAccess m "id"
  let d ← jsAccess m "description"
  .ok { name := n, value := v, description := d }

/-- The `try` block of `getModels` (lines 194–210). -/
def getModelsTry (request : RequestOptions → Except JsError JsValue) (apiKey : String) :
    List Effect × Except JsError (List ModelOption) :=
  let opts := modelsRequestOptions apiKey
  match request opts with
  | .error e => ([.httpRequest opts], .error e)
  | .ok resp =>
    match jsAccess resp "data" with
    | .error e => ([.httpRequest opts], .error e)
    | .ok models =>
      match models with
      | .arr entries =>
        match entries.mapM mapModel with
        | .ok options => ([.httpRequest opts], .ok options)
        | .error e => ([.httpRequest opts], .error e)
      | _ =>
        ([.httpRequest opts],
         .error (.errorObj "Invalid response format from OpenRouter API"))

/-- The `getModels` loader (lines 179–225): credential read, the `try` body, and the
`catch` that rewraps any failure into a `NodeOperationError`. -/
def getModels (request : RequestOptions → Except JsError JsValue) (apiKey : String) :
    List Effect × Except JsError (List ModelOption) :=
  match getModelsTry request apiKey with
  | (fx, .ok v) => (.getCredentials "openRouterApi" :: fx, .ok v)
  | (fx, .error (.errorObj m)) =>
    (.getCredentials "openRouterApi" :: fx,
     .error (.errorObj ("Failed to load models from OpenRouter API: " ++ m)))
  | (fx, .error (.nonError _)) =>
    (.getCredentials "openRouterApi" :: fx,
     .error (.errorObj "Failed to load models from OpenRouter API: Unknown error"))

/-- The record that item `p` at index `i` contributes to `returnData` when
`continueOnFail()` is active: its success record, or the error record. -/
def expectedRecord (apiKey : String) (request : RequestOptions → Except JsError JsValue)
    (parseJson : String → Except JsError JsValue) (i : Nat) (p : ItemParams) : OutputRecord :=
  match (processItem apiKey request parseJson p).2 with
  | .ok r => r
  | .error e => errRecord e i

/-- The records contributed by a list of items starting at index `i`. -/
def expectedRecords (apiKey : String) (request : RequestOptions → Except JsError JsValue)
    (parseJson : String → Except JsError JsValue) : Nat → List ItemParams → List OutputRecord
  | _, [] => []
  | i, p :: ps =>
    expectedRecord apiKey request parseJson i p ::
      expectedRecords apiKey request parseJson (i + 1) ps

/-- The concatenated effect traces of a list of items. -/
def itemEffects (apiKey : String) (request : RequestOptions → Except JsError JsValue)
    (parseJson : String → Except JsError JsValue) : List ItemParams → List Effect
  | [] => []
  | p :: ps =>
    (processItem apiKey request parseJson p).1 ++ itemEffects apiKey request parseJson ps

/-- A well-formed chat-completion item used in concrete instances; its one
message carries an extra key beyond role/content. -/
def itemOk : ItemParams :=
  { operation := "chatCompletion"
    model := "openai/gpt-4o"
    messages := [[("role", .str "user"), ("content", .str "hi"), ("extra", .num 5)]]
    max_tokens := 16
    temperature := 1
    top_p := 1
    frequency_penalty := 0
    presence_penalty := 0
    stream := false }

/-- Like `itemOk` but with an empty configured message list. -/
def itemEmpty : ItemParams := { itemOk with messages := [] }

/-- Like `itemOk` but with the streaming flag set. -/
def itemStream : ItemParams := { itemOk with stream := true }

/-- Like `itemOk` but with an unsupported operation selector. -/
def itemBadOp : ItemParams := { itemOk with operation := "imageGeneration" }

/-- A transport that always answers with a small JSON object. -/
def reqOkEx : RequestOptions → Except JsError JsValue :=
  fun _ => .ok (.obj [("id", .str "x")])

/-- The streaming body from the specification's example. -/
def streamBodyEx : String := "data: \x7b\"a\":1\x7d\n\ndata: \x7b\"a\":2\x7d\n\n"

/-- A transport that always answers with `streamBodyEx` as raw text. -/
def reqStreamEx : RequestOptions → Except JsError JsValue :=
  fun _ => .ok (.str streamBodyEx)

/-- A concrete `JSON.parse` consistent with JSON semantics on the two
frames of `streamBodyEx`, throwing a syntax error elsewhere. -/
def pjEx : String → Except JsError JsValue := fun s =>
  if s = "\x7b\"a\":1\x7d" then .ok (.obj [("a", .num 1)])
  else if s = "\x7b\"a\":2\x7d" then .ok (.obj [("a", .num 2)])
  else .error (.errorObj ("Unexpected token: " ++ s))

/-- Three-item batch whose middle item fails validation, continue-on-fail
active. -/
def envC2 : ExecEnv :=
  { items := [itemOk, itemEmpty, itemOk]
    apiKey := "k"
    continueOnFail := true
    request := reqOkEx
    parseJson := pjEx }

/-- Same batch with continue-on-fail inactive. -/
def envC3 : ExecEnv := { envC2 with continueOnFail := false }

/-- A two-item batch used to count credential reads. -/
def envC9 : ExecEnv :=
  { items := [itemOk, itemOk]
    apiKey := "k"
    continueOnFail := true
    request := reqOkEx
    parseJson := pjEx }

/-- Transport answering the specification's one-descriptor model list. -/
def reqModelsEx : RequestOptions → Except JsError JsValue :=
  fun _ => .ok (.obj [("data", .arr [.obj [("id", .str "m1"), ("description", .str "d1")]])])

/-- Transport answering a body that lacks the `data` array field. -/
def reqModelsBad : RequestOptions → Except JsError JsValue :=
  fun _ => .ok (.obj [("object", .str "list")])

/-- The effect trace of one item is empty (validation failure) or a single
HTTP request: the item never reads credentials or calls twice. -/
theorem processItem_effects (apiKey : String) (request : RequestOptions → Except JsError JsValue)
    (parseJson : String → Except JsError JsValue) (p : ItemParams) :
    (processItem apiKey request parseJson p).1 = [] ∨
    ∃ o, (processItem apiKey request parseJson p).1 = [.httpRequest o] := by
  unfold processItem
  dsimp only
  by_cases hop : p.operation = "chatCompletion" <;> simp only [hop, if_true, if_false, reduceIte]
  · by_cases hlen : (List.map projectMessage p.messages).length = 0 <;>
      simp only [hlen, if_true, if_false, reduceIte]
    · simp
    · by_cases hs : p.stream <;> simp only [hs, if_true, if_false, reduceIte]
      · cases hv : request (streamAdjust (chatRequestOptions apiKey p)) with
        | error e => simp
        | ok v =>
          cases v <;> simp
          rename_i s
          cases hpc : parseChunks parseJson s <;> simp
      · cases hv : request (chatRequestOptions apiKey p) <;> simp
  · simp

/-- No credential read appears in an item's effect trace. -/
theorem processItem_noCredRead (apiKey : String) (request : RequestOptions → Except JsError JsValue)
    (parseJson : String → Except JsError JsValue) (p : ItemParams) :
    ((processItem apiKey request parseJson p).1).countP Effect.isCredRead = 0 := by
  rcases processItem_effects apiKey request parseJson p with h | ⟨o, h⟩ <;>
    simp [h, List.countP_cons, Effect.isCredRead]

/-- A valid chat-completion item issues exactly one HTTP request, with the
stream-adjusted options exactly when its streaming flag is set. -/
theorem processItem_request (apiKey : String) (request : RequestOptions → Except JsError JsValue)
    (parseJson : String → Except JsError JsValue) (p : ItemParams)
    (hop : p.operation = "chatCompletion") (hmsg : p.messages ≠ []) :
    (processItem apiKey request parseJson p).1 =
      [.httpRequest (if p.stream then streamAdjust (chatRequestOptions apiKey p)
                     else chatRequestOptions apiKey p)] := by
  have hlen : ¬ (List.map projectMessage p.messages).length = 0 := by
    simpa [List.length_eq_zero] using hmsg
  unfold processItem
  dsimp only
  simp only [hop, hlen, if_true, if_false, reduceIte]
  by_cases hs : p.stream <;> simp only [hs, if_true, if_false, reduceIte]
  · cases hv : request (streamAdjust (chatRequestOptions apiKey p)) with
    | error e => simp
    | ok v =>
      cases v <;> simp
      rename_i s
      cases hpc : parseChunks parseJson s <;> simp
  · cases hv : request (chatRequestOptions apiKey p) <;> simp

/-- With continue-on-fail active the loop never aborts: it yields every
item's expected record and the concatenation of the item traces. -/
theorem execLoop_continueOnFail (apiKey : String)
    (request : RequestOptions → Except JsError JsValue)
    (parseJson : String → Except JsError JsValue) (ps : List ItemParams) :
    ∀ i, execLoop apiKey request parseJson true i ps =
      (itemEffects apiKey request parseJson ps,
       .ok (expectedRecords apiKey request parseJson i ps)) := by
  induction ps with
  | nil => intro i; rfl
  | cons p ps ih =>
    intro i
    rcases hp : processItem apiKey request parseJson p with ⟨fx, r⟩
    cases r with
    | ok rec =>
      simp [execLoop, hp, ih (i + 1), itemEffects, expectedRecords, expectedRecord]
    | error e =>
      simp [execLoop, hp, ih (i + 1), itemEffects, expectedRecords, expectedRecord]

/-- When every item succeeds, the loop yields every item's record
regardless of the continue-on-fail flag. -/
theorem execLoop_allOk (apiKey : String)
    (request : RequestOptions → Except JsError JsValue)
    (parseJson : String → Except JsError JsValue) (cof : Bool) (ps : List ItemParams) :
    (∀ p ∈ ps, ∃ fx r, processItem apiKey request parseJson p = (fx, .ok r)) →
    ∀ i, execLoop apiKey request parseJson cof i ps =
      (itemEffects apiKey request parseJson ps,
       .ok (expectedRecords apiKey request parseJson i ps)) := by
  induction ps with
  | nil => intro _ i; rfl
  | cons p ps ih =>
    intro h i
    obtain ⟨fx, r, hp⟩ := h p (by simp)
    have ihx := ih (fun q hq => h q (by simp [hq])) (i + 1)
    simp [execLoop, hp, ihx, itemEffects, expectedRecords, expectedRecord]

/-- With continue-on-fail inactive, the first failing item aborts the
loop: its error propagates and no later item contributes effects. -/
theorem execLoop_abort (apiKey : String)
    (request : RequestOptions → Except JsError JsValue)
    (parseJson : String → Except JsError JsValue)
    (bad : ItemParams) (e : JsError) (fxb : List Effect)
    (hbad : processItem apiKey request parseJson bad = (fxb, .error e)) :
    ∀ (pre : List ItemParams),
      (∀ p ∈ pre, ∃ fx r, processItem apiKey request parseJson p = (fx, .ok r)) →
    ∀ (post : List ItemParams) (i : Nat),
      execLoop apiKey request parseJson false i (pre ++ bad :: post) =
        (itemEffects apiKey request parseJson pre ++ fxb, .error e) := by
  intro pre
  induction pre with
  | nil =>
    intro _ post i
    simp [execLoop, hbad, itemEffects]
  | cons p pre ih =>
    intro h post i
    obtain ⟨fx, r, hp⟩ := h p (by simp)
    have ihx := ih (fun q hq => h q (by simp [hq])) post (i + 1)
    simp [execLoop, hp, ihx, itemEffects]

/-- The loop never reads credentials, whatever the flag or the outcome. -/
theorem execLoop_noCredRead (apiKey : String)
    (request : RequestOptions → Except JsError JsValue)
    (parseJson : String → Except JsError JsValue) (cof : Bool) :
    ∀ (ps : List ItemParams) (i : Nat),
      ((execLoop apiKey request parseJson cof i ps).1).countP Effect.isCredRead = 0 := by
  intro ps
  induction ps with
  | nil => intro i; rfl
  | cons p ps ih =>
    intro i
    have hp := processItem_noCredRead apiKey request parseJson p
    have hrec := ih (i + 1)
    rcases h1 : processItem apiKey request parseJson p with ⟨fx, r⟩
    rcases h2 : execLoop apiKey request parseJson cof (i + 1) ps with ⟨fx2, r2⟩
    rw [h1] at hp
    rw [h2] at hrec
    cases r with
    | ok rec =>
      cases r2 <;> simp [execLoop, h1, h2, List.countP_append, hp, hrec]
    | error e =>
      cases cof <;> cases r2 <;> simp [execLoop, h1, h2, List.countP_append, hp, hrec]

/-- One expected record per item. -/
theorem expectedRecords_length (apiKey : String)
    (request : RequestOptions → Except JsError JsValue)
    (parseJson : String → Except JsError JsValue) :
    ∀ (ps : List ItemParams) (i : Nat),
      (expectedRecords apiKey request parseJson i ps).length = ps.length := by
  intro ps
  induction ps with
  | nil => intro i; rfl
  | cons p ps ih => intro i; simp [expectedRecords, ih (i + 1)]

/-- The k-th expected record originates from the k-th item. -/
theorem expectedRecords_get (apiKey : String)
    (request : RequestOptions → Except JsError JsValue)
    (parseJson : String → Except JsError JsValue) :
    ∀ (ps : List ItemParams) (i k : Nat) (hk : k < ps.length)
      (hk2 : k < (expectedRecords apiKey request parseJson i ps).length),
      (expectedRecords apiKey request parseJson i ps).get ⟨k, hk2⟩ =
        expectedRecord apiKey request parseJson (i + k) (ps.get ⟨k, hk⟩) := by
  intro ps
  induction ps with
  | nil => intro i k hk hk2; exact absurd hk (by simp)
  | cons p ps ih =>
    intro i k hk hk2
    cases k with
    | zero => simp [expectedRecords]
    | succ k =>
      have h1 : k < ps.length := by simpa using hk
      have h2 : k < (expectedRecords apiKey request parseJson (i + 1) ps).length := by
        simpa [expectedRecords_length] using h1
      have := ih (i + 1) k h1 h2
      have harith : i + 1 + k = i + (k + 1) := by omega
      simpa [expectedRecords, harith] using this

/-- A successful `mapM` over `Except` yields one output per input. -/
theorem mapM_ok_length {α β : Type} (f : α → Except JsError β) :
    ∀ (xs : List α) (ys : List β), xs.mapM f = .ok ys → ys.length = xs.length := by
  intro xs
  induction xs with
  | nil =>
    intro ys h
    simp only [List.mapM_nil, pure, Except.pure] at h
    cases h
    rfl
  | cons x xs ih =>
    intro ys h
    rw [List.mapM_cons] at h
    cases hfx : f x with
    | error e => rw [hfx] at h; simp [Bind.bind, Except.bind] at h
    | ok y =>
      rw [hfx] at h
      cases hxs : xs.mapM f with
      | error e =>
        rw [hxs] at h
        simp [Bind.bind, Except.bind] at h
      | ok ys2 =>
        rw [hxs] at h
        simp only [Bind.bind, Except.bind, pure, Except.pure] at h
        cases h
        simp [ih ys2 hxs]

/-- Claim C1: for a streaming-mode item whose HTTP response body is a raw
text string, the output record is built by splitting the body on the
double-newline delimiter, discarding whitespace-only chunks, stripping the
first occurrence of `data: ` from each remaining chunk and parsing each
residual as JSON; the record equals `{json: {streamedResponse: <parsed
values in order>}}`, and a chunk whose residual fails to parse fails the
whole item. -/
theorem C1_streaming_frames (apiKey : String)
    (request : RequestOptions → Except JsError JsValue)
    (parseJson : String → Except JsError JsValue) (p : ItemParams) (body : String)
    (hop : p.operation = "chatCompletion") (hmsg : p.messages ≠ [])
    (hstream : p.stream = true)
    (hreq : request (streamAdjust (chatRequestOptions apiKey p)) = .ok (.str body)) :
    parseChunks parseJson body =
      ((jsSplitNN body).filter (fun chunk => jsTrim chunk ≠ "")).mapM
        (fun chunk => parseJson (stripDataOnce chunk))
    ∧ (∀ parsed, parseChunks parseJson body = .ok parsed →
        processItem apiKey request parseJson p =
          ([.httpRequest (streamAdjust (chatRequestOptions apiKey p))],
           .ok { json := .obj [("streamedResponse", .arr parsed)], pairedItem := none }))
    ∧ (∀ e, parseChunks parseJson body = .error e →
        processItem apiKey request parseJson p =
          ([.httpRequest (streamAdjust (chatRequestOptions apiKey p))], .error e)) := by
  have hlen : ¬ (List.map projectMessage p.messages).length = 0 := by
    simpa [List.length_eq_zero] using hmsg
  refine ⟨rfl, ?_, ?_⟩ <;> intro x hx <;>
    simp [processItem, hop, hlen, hmsg, hstream, hreq, hx]

/-- Claim C1, instantiated at the specification's example body: exactly two
frames, in arrival order. -/
theorem C1_streaming_frames_witness :
    processItem "k" reqStreamEx pjEx itemStream =
      ([.httpRequest (streamAdjust (chatRequestOptions "k" itemStream))],
       .ok { json := .obj [("streamedResponse",
                .arr [.obj [("a", .num 1)], .obj [("a", .num 2)]])],
             pairedItem := none }) := by
  have h := C1_streaming_frames "k" reqStreamEx pjEx itemStream streamBodyEx rfl
    (by simp [itemStream, itemOk]) rfl rfl
  exact h.2.1 [.obj [("a", .num 1)], .obj [("a", .num 2)]] rfl

/-- Claim C2: with continue-on-fail active, a failing item contributes
exactly one output record `{json: {error: <message>}, pairedItem: {item:
<its index>}}` and processing proceeds: the batch still yields one record
per item, in order. -/
theorem C2_continue_on_fail (env : ExecEnv) (hcof : env.continueOnFail = true)
    (k : Nat) (hk : k < env.items.length) (e : JsError)
    (hfail : (processItem env.apiKey env.request env.parseJson (env.items.get ⟨k, hk⟩)).2 =
      .error e) :
    execute env =
      (.getCredentials "openRouterApi" ::
         itemEffects env.apiKey env.request env.parseJson env.items,
       .ok [expectedRecords env.apiKey env.request env.parseJson 0 env.items])
    ∧ (expectedRecords env.apiKey env.request env.parseJson 0 env.items).length =
        env.items.length
    ∧ ∀ hk2 : k < (expectedRecords env.apiKey env.request env.parseJson 0 env.items).length,
        (expectedRecords env.apiKey env.request env.parseJson 0 env.items).get ⟨k, hk2⟩ =
          errRecord e k := by
  have hl := execLoop_continueOnFail env.apiKey env.request env.parseJson env.items 0
  rw [← hcof] at hl
  refine ⟨by simp [execute, hl], expectedRecords_length _ _ _ _ 0, ?_⟩
  intro hk2
  have hg := expectedRecords_get env.apiKey env.request env.parseJson env.items 0 k hk hk2
  rw [hg]
  have hfail2 : (processItem env.apiKey env.request env.parseJson env.items[k]).2 = .error e := by
    simpa using hfail
  simp [expectedRecord, hfail2]

/-- Claim C2, instantiated at a three-item batch whose middle item fails:
success, error record with pairedItem.item = 1, success, in order. -/
theorem C2_continue_on_fail_witness :
    (execute envC2).2 =
      .ok [[{ json := .obj [("id", .str "x")], pairedItem := none },
            { json := .obj [("error", .str "At least one message is required")],
              pairedItem := some 1 },
            { json := .obj [("id", .str "x")], pairedItem := none }]] := by
  have h := C2_continue_on_fail envC2 rfl 1 (by decide)
    (.errorObj "At least one message is required") rfl
  rw [h.1]
  rfl

/-- Claim C3: with continue-on-fail inactive, a failing item propagates its
failure out of `execute` (no output list is returned) and no later item is
processed: the effect trace ends with the failing item's effects. -/
theorem C3_abort_on_fail (env : ExecEnv) (hcof : env.continueOnFail = false)
    (pre : List ItemParams) (bad : ItemParams) (post : List ItemParams)
    (hsplit : env.items = pre ++ bad :: post)
    (hpre : ∀ p ∈ pre, ∃ fx r, processItem env.apiKey env.request env.parseJson p = (fx, .ok r))
    (e : JsError) (fxb : List Effect)
    (hbad : processItem env.apiKey env.request env.parseJson bad = (fxb, .error e)) :
    execute env =
      (.getCredentials "openRouterApi" ::
         (itemEffects env.apiKey env.request env.parseJson pre ++ fxb),
       .error e) := by
  have hl := execLoop_abort env.apiKey env.request env.parseJson bad e fxb hbad pre hpre post 0
  rw [← hsplit, ← hcof] at hl
  simp [execute, hl]

/-- Claim C3, instantiated at a three-item batch whose middle item fails:
the error propagates and item 3 issues no request. -/
theorem C3_abort_on_fail_witness :
    execute envC3 =
      ([.getCredentials "openRouterApi", .httpRequest (chatRequestOptions "k" itemOk)],
       .error (.errorObj "At least one message is required")) := by
  have h := C3_abort_on_fail envC3 rfl [itemOk] itemEmpty [itemOk] rfl
    (by intro p hp
        simp only [List.mem_singleton] at hp
        subst hp
        exact ⟨_, _, rfl⟩)
    (.errorObj "At least one message is required") [] rfl
  simpa using h

/-- Claim C4: for a non-empty message list and the supported operation, the
constructed payload has exactly the fields `model, messages, max_tokens,
temperature, top_p, frequency_penalty, presence_penalty, stream`; its
`messages` field preserves the input order and each entry's role and
content; and the single dispatched request carries that payload. -/
theorem C4_payload (apiKey : String) (request : RequestOptions → Except JsError JsValue)
    (parseJson : String → Except JsError JsValue) (p : ItemParams)
    (hop : p.operation = "chatCompletion") (hmsg : p.messages ≠ []) :
    buildBody p =
      { model := p.model
        messages := p.messages.map projectMessage
        max_tokens := p.max_tokens
        temperature := p.temperature
        top_p := p.top_p
        frequency_penalty := p.frequency_penalty
        presence_penalty := p.presence_penalty
        stream := p.stream }
    ∧ (buildBody p).messages.length = p.messages.length
    ∧ (∀ k (hk : k < p.messages.length) (hk2 : k < (buildBody p).messages.length),
        (buildBody p).messages.get ⟨k, hk2⟩ =
          [("role", jsGet (p.messages.get ⟨k, hk⟩) "role"),
           ("content", jsGet (p.messages.get ⟨k, hk⟩) "content")])
    ∧ (processItem apiKey request parseJson p).1 =
        [.httpRequest (if p.stream then streamAdjust (chatRequestOptions apiKey p)
                       else chatRequestOptions apiKey p)]
    ∧ (chatRequestOptions apiKey p).body = some (buildBody p)
    ∧ (streamAdjust (chatRequestOptions apiKey p)).body = some (buildBody p) := by
  refine ⟨rfl, by simp [buildBody], ?_,
    processItem_request apiKey request parseJson p hop hmsg, rfl, rfl⟩
  intro k hk hk2
  simp [buildBody, projectMessage]

/-- Claim C4, instantiated at a concrete item. -/
theorem C4_payload_witness :
    (buildBody itemOk).messages = [[("role", .str "user"), ("content", .str "hi")]]
    ∧ (processItem "k" reqOkEx pjEx itemOk).1 =
        [.httpRequest (chatRequestOptions "k" itemOk)] := by
  have h := C4_payload "k" reqOkEx pjEx itemOk rfl (by simp [itemOk])
  exact ⟨rfl, by simpa using h.2.2.2.1⟩

/-- Claim C5: an empty message list under the supported operation fails
with the empty-message-list error, and an unsupported operation selector
fails with an error naming it; in both cases the effect trace is empty, so
no network call is issued. -/
theorem C5_validation (apiKey : String) (request : RequestOptions → Except JsError JsValue)
    (parseJson : String → Except JsError JsValue) (p : ItemParams) :
    (p.operation = "chatCompletion" → p.messages = [] →
      processItem apiKey request parseJson p =
        ([], .error (.errorObj "At least one message is required")))
    ∧ (p.operation ≠ "chatCompletion" →
      processItem apiKey request parseJson p =
        ([], .error (.errorObj ("The operation \"" ++ p.operation ++ "\" is not supported")))) := by
  constructor
  · intro hop hmsg
    simp [processItem, hop, hmsg]
  · intro hop
    simp [processItem, hop]

/-- Claim C5, instantiated at an empty-message item and at an unsupported
operation. -/
theorem C5_validation_witness :
    processItem "k" reqOkEx pjEx itemEmpty =
      ([], .error (.errorObj "At least one message is required"))
    ∧ processItem "k" reqOkEx pjEx itemBadOp =
      ([], .error (.errorObj "The operation \"imageGeneration\" is not supported")) := by
  refine ⟨(C5_validation "k" reqOkEx pjEx itemEmpty).1 rfl rfl, ?_⟩
  have h := (C5_validation "k" reqOkEx pjEx itemBadOp).2 (by decide)
  exact h

/-- Claim C6: when every item succeeds or continue-on-fail is active,
`execute` returns exactly one output record per input record, and the k-th
output record originates from the k-th input item. -/
theorem C6_one_record_per_item (env : ExecEnv)
    (h : env.continueOnFail = true ∨
         ∀ p ∈ env.items, ∃ fx r, processItem env.apiKey env.request env.parseJson p =
           (fx, .ok r)) :
    (execute env).2 = .ok [expectedRecords env.apiKey env.request env.parseJson 0 env.items]
    ∧ (expectedRecords env.apiKey env.request env.parseJson 0 env.items).length =
        env.items.length
    ∧ ∀ k (hk : k < env.items.length)
        (hk2 : k < (expectedRecords env.apiKey env.request env.parseJson 0 env.items).length),
        (expectedRecords env.apiKey env.request env.parseJson 0 env.items).get ⟨k, hk2⟩ =
          expectedRecord env.apiKey env.request env.parseJson k (env.items.get ⟨k, hk⟩) := by
  have hl : execLoop env.apiKey env.request env.parseJson env.continueOnFail 0 env.items =
      (itemEffects env.apiKey env.request env.parseJson env.items,
       .ok (expectedRecords env.apiKey env.request env.parseJson 0 env.items)) := by
    rcases h with hcof | hok
    · rw [hcof]; exact execLoop_continueOnFail _ _ _ _ 0
    · exact execLoop_allOk _ _ _ _ _ hok 0
  refine ⟨by simp [execute, hl], expectedRecords_length _ _ _ _ 0, ?_⟩
  intro k hk hk2
  simpa using expectedRecords_get env.apiKey env.request env.parseJson env.items 0 k hk hk2

/-- Claim C6, instantiated at the three-item batch with one failure under
continue-on-fail. -/
theorem C6_one_record_per_item_witness :
    (execute envC2).2 =
      .ok [expectedRecords envC2.apiKey envC2.request envC2.parseJson 0 envC2.items]
    ∧ (expectedRecords envC2.apiKey envC2.request envC2.parseJson 0 envC2.items).length = 3 :=
  ⟨(C6_one_record_per_item envC2 (Or.inl rfl)).1,
   (C6_one_record_per_item envC2 (Or.inl rfl)).2.1⟩

/-- Claim C7: a model-list response whose `data` field is an array yields
one option per entry, in order, mapping each descriptor to
`{name: id, value: id, description: description}`. -/
theorem C7_models_mapping (request : RequestOptions → Except JsError JsValue) (apiKey : String)
    (resp : JsValue) (entries : List JsValue) (options : List ModelOption)
    (hreq : request (modelsRequestOptions apiKey) = .ok resp)
    (hdata : jsAccess resp "data" = .ok (.arr entries))
    (hmap : entries.mapM mapModel = .ok options) :
    getModels request apiKey =
      ([.getCredentials "openRouterApi", .httpRequest (modelsRequestOptions apiKey)],
       .ok options)
    ∧ options.length = entries.length
    ∧ ∀ fs, mapModel (.obj fs) =
        .ok { name := jsGet fs "id", value := jsGet fs "id",
              description := jsGet fs "description" } := by
  refine ⟨?_, mapM_ok_length mapModel entries options hmap, fun fs => rfl⟩
  have htry : getModelsTry request apiKey =
      ([.httpRequest (modelsRequestOptions apiKey)], .ok options) := by
    simp only [getModelsTry, hreq, hdata, hmap]
  simp [getModels, htry]

/-- Claim C7, instantiated at the specification's one-descriptor list. -/
theorem C7_models_mapping_witness :
    getModels reqModelsEx "k" =
      ([.getCredentials "openRouterApi", .httpRequest (modelsRequestOptions "k")],
       .ok [{ name := .str "m1", value := .str "m1", description := .str "d1" }]) :=
  (C7_models_mapping reqModelsEx "k"
    (.obj [("data", .arr [.obj [("id", .str "m1"), ("description", .str "d1")]])])
    [.obj [("id", .str "m1"), ("description", .str "d1")]]
    [{ name := .str "m1", value := .str "m1", description := .str "d1" }]
    rfl rfl rfl).1

/-- Claim C8: a response whose `data` field is not an array fails with the
wrapped malformed-response error after exactly one HTTP request; a
transport failure carrying an `Error` is wrapped with its message, and a
non-`Error` failure yields the generic unknown-error message. -/
theorem C8_models_errors (request : RequestOptions → Except JsError JsValue) (apiKey : String) :
    (∀ resp models, request (modelsRequestOptions apiKey) = .ok resp →
      jsAccess resp "data" = .ok models → (∀ entries, models ≠ .arr entries) →
      getModels request apiKey =
        ([.getCredentials "openRouterApi", .httpRequest (modelsRequestOptions apiKey)],
         .error (.errorObj
           "Failed to load models from OpenRouter API: Invalid response format from OpenRouter API")))
    ∧ (∀ m, request (modelsRequestOptions apiKey) = .error (.errorObj m) →
      getModels request apiKey =
        ([.getCredentials "openRouterApi", .httpRequest (modelsRequestOptions apiKey)],
         .error (.errorObj ("Failed to load models from OpenRouter API: " ++ m))))
    ∧ (∀ v, request (modelsRequestOptions apiKey) = .error (.nonError v) →
      getModels request apiKey =
        ([.getCredentials "openRouterApi", .httpRequest (modelsRequestOptions apiKey)],
         .error (.errorObj "Failed to load models from OpenRouter API: Unknown error"))) := by
  refine ⟨?_, ?_, ?_⟩
  · intro resp models hreq hdata hne
    cases models <;> first
      | exact absurd rfl (hne _)
      | simp [getModels, getModelsTry, hreq, hdata]
  · intro m hreq
    simp [getModels, getModelsTry, hreq]
  · intro v hreq
    simp [getModels, getModelsTry, hreq]

/-- Claim C8, instantiated at a response lacking the `data` array. -/
theorem C8_models_errors_witness :
    getModels reqModelsBad "k" =
      ([.getCredentials "openRouterApi", .httpRequest (modelsRequestOptions "k")],
       .error (.errorObj
         "Failed to load models from OpenRouter API: Invalid response format from OpenRouter API")) :=
  (C8_models_errors reqModelsBad "k").1 (.obj [("object", .str "list")]) .jsUndefined rfl rfl
    (fun _ h => nomatch h)

/-- Claim C9 as stated is false: in a two-item batch, `execute` performs
one credential read, not one per item — the read happens once before the
loop (line 233), outside the per-item block. -/
theorem C9_credentials_counterexample :
    envC9.items.length = 2
    ∧ (execute envC9).1.countP Effect.isCredRead = 1
    ∧ (execute envC9).1.countP Effect.isCredRead ≠ envC9.items.length := by
  refine ⟨rfl, rfl, ?_⟩
  decide

/-- Claim C9, amended: `execute` reads the stored credentials exactly once
per batch, before any item is processed, and the per-item loop performs no
further credential read. -/
theorem C9_credentials_once (env : ExecEnv) :
    (execute env).1.countP Effect.isCredRead = 1
    ∧ (execute env).1.head? = some (.getCredentials "openRouterApi") := by
  rcases hl : execLoop env.apiKey env.request env.parseJson env.continueOnFail 0 env.items
    with ⟨fx, r⟩
  have h0 := execLoop_noCredRead env.apiKey env.request env.parseJson env.continueOnFail
    env.items 0
  rw [hl] at h0
  cases r <;> simp [execute, hl, List.countP_cons, Effect.isCredRead, h0]

/-- Claim C10: each configured message object is projected onto exactly the
keys `role` and `content` before payload construction; any other key is
absent from the corresponding payload entry. -/
theorem C10_message_projection (p : ItemParams) :
    (buildBody p).messages = p.messages.map projectMessage
    ∧ (∀ m, (projectMessage m).map Prod.fst = ["role", "content"])
    ∧ (∀ m k, k ≠ "role" → k ≠ "content" → (projectMessage m).lookup k = none) := by
  refine ⟨rfl, fun m => rfl, ?_⟩
  intro m k h1 h2
  have b1 : (k == "role") = false := beq_eq_false_iff_ne.mpr h1
  have b2 : (k == "content") = false := beq_eq_false_iff_ne.mpr h2
  simp [projectMessage, List.lookup, b1, b2]

/-- Claim C10, instantiated at a message carrying an extra key. -/
theorem C10_message_projection_witness :
    (buildBody itemOk).messages = [[("role", .str "user"), ("content", .str "hi")]]
    ∧ (projectMessage
        [("role", .str "user"), ("content", .str "hi"), ("extra", .num 5)]).lookup
        "extra" = none := by
  refine ⟨(C10_message_projection itemOk).1.trans rfl, ?_⟩
  exact (C10_message_projection itemOk).2.2
    [("role", .str "user"), ("content", .str "hi"), ("extra", .num 5)]
    "extra" (by decide) (by decide)
